import Mathlib

/-!
Verification of the collector's statement-statistics acquisition
(`dbstats/statements.go`), its capability probes (`input/postgres/superuser.go`)
and the persisted-state data model (`state` package), as a shallow embedding.

Modelling conventions:
* Go `int`, `int64`, `uint`, `float64` column values are modelled as `Int`
  (resp. `Nat` for `uint`); the code under verification only transports these
  values, it performs no arithmetic on them.
* Fallible database calls are modelled by an oracle (`Db`) describing the
  outcome of each call; server errors are `PgError` records carrying their
  SQLSTATE code, as `lib/pq` reports them.
* `QueryMarkerSQL` is defined outside the sources at hand; it is kept as an
  explicit `marker` parameter throughout.
-/

namespace Collector

/-- A server-side error as surfaced by the `lib/pq` driver: carries the
five-character SQLSTATE code the code under verification branches on. -/
structure PgError where
  code : String
deriving Repr, DecidableEq

/-! ### SQL text constants, transcribed verbatim from the Go sources -/

/-- `statementSQLDefaultOptionalFields` from `dbstats/statements.go`. -/
def statementSQLDefaultOptionalFields : String := "NULL, NULL, NULL, NULL, NULL"

/-- `statementSQLpg94OptionalFields` from `dbstats/statements.go`. -/
def statementSQLpg94OptionalFields : String := "queryid, NULL, NULL, NULL, NULL"

/-- `statementSQLpg95OptionalFields` from `dbstats/statements.go`. -/
def statementSQLpg95OptionalFields : String := "queryid, min_time, max_time, mean_time, stddev_time"

/-- `statementSQL` from `dbstats/statements.go` (Go raw string, tabs and
newlines preserved; the three format verbs are filled by Sprintf below). -/
def statementSQL : String :=
  "\nSELECT userid, query, calls, total_time, rows, shared_blks_hit, shared_blks_read,\n\t\t\t shared_blks_dirtied, shared_blks_written, local_blks_hit, local_blks_read,\n\t\t\t local_blks_dirtied, local_blks_written, temp_blks_read, temp_blks_written,\n\t\t\t blk_read_time, blk_write_time, %s\n\tFROM %s\n WHERE query !~* '^%s' AND query <> '<insufficient privilege>'\n\t\t\t AND query NOT LIKE 'DEALLOCATE %%'\n\t\t\t AND dbid IN (SELECT oid FROM pg_database WHERE datname = current_database())"

/-- `statementStatsHelperSQL` from `dbstats/statements.go`. -/
def statementStatsHelperSQL : String :=
  "\nSELECT 1 AS enabled\n\tFROM pg_proc\n\tJOIN pg_namespace ON (pronamespace = pg_namespace.oid)\n WHERE nspname = 'pganalyze' AND proname = 'get_stat_statements'\n"

/-- `connectedAsSuperUserSQL` from `input/postgres/superuser.go`. -/
def connectedAsSuperUserSQL : String :=
  "SELECT current_setting('is_superuser') = 'on'"

/-- `connectedAsMonitoringRoleSQL` from `input/postgres/superuser.go`. -/
def connectedAsMonitoringRoleSQL : String :=
  "\nSELECT true\n\tFROM pg_auth_members\n WHERE roleid = (SELECT oid FROM pg_roles WHERE rolname = 'pg_monitor')\n\t\t\t AND member = (SELECT oid FROM pg_roles WHERE rolname = current_user);"

/-- `statsHelperSQL` from `input/postgres/superuser.go` (one format verb,
filled with the probed helper name). -/
def statsHelperSQL : String :=
  "\nSELECT 1 AS enabled\n\tFROM pg_proc\n\tJOIN pg_namespace ON (pronamespace = pg_namespace.oid)\n WHERE nspname = 'pganalyze' AND proname = '%s'\n"

/-- The SQL text sent by the self-healing branch of `GetStatements`
(`dbstats/statements.go`, line 105). -/
def createExtensionSQL : String := "CREATE EXTENSION IF NOT EXISTS pg_stat_statements"

/-! ### Go standard-library string operations used by the sources -/

/-- Go `strings.Trim(s, " ")`: remove leading and trailing spaces. -/
def goTrimSpace (l : List Char) : List Char :=
  ((l.dropWhile (fun c => c == ' ')).reverse.dropWhile (fun c => c == ' ')).reverse

/-- Go `strings.Replace(s, old, new, -1)` for a one-character `old`:
replace every occurrence of `oldC` by `new`. -/
def goReplaceChar (oldC : Char) (new : List Char) : List Char → List Char
  | [] => []
  | c :: r =>
    if c == oldC then new ++ goReplaceChar oldC new r
    else c :: goReplaceChar oldC new r

/-- Go `fmt.Sprintf` restricted to the `%s` and `%%` verbs, the only verbs the
sources use; `args` always covers every `%s` verb in the uses below. -/
def goSprintf : List Char → List String → List Char
  | '%' :: 's' :: rest, a :: args => a.data ++ goSprintf rest args
  | '%' :: '%' :: rest, args => '%' :: goSprintf rest args
  | c :: rest, args => c :: goSprintf rest args
  | [], _ => []

/-- `fmt.Sprintf` with one `%s` argument. -/
def goFormat1 (fmtStr a : String) : String := String.mk (goSprintf fmtStr.data [a])

/-- `fmt.Sprintf` with three `%s` arguments, as used for `statementSQL`. -/
def goFormat3 (fmtStr a b c : String) : String := String.mk (goSprintf fmtStr.data [a, b, c])

/-- The marker-escaping of `GetStatements` (`dbstats/statements.go`,
lines 94 to 96): trim spaces, then escape every star, then every slash. -/
def queryMarkerRegexOf (marker : String) : String :=
  String.mk (goReplaceChar '/' ['\\', '/'] (goReplaceChar '*' ['\\', '*']
    (goTrimSpace marker.data)))

/-! ### Model of the database engine evaluating the acquisition query -/

/-- Model of Postgres evaluating `text ~* ('^' ++ pattern)`: case-insensitive
regular-expression match anchored at the start of the text. Covers the
pattern fragment the collector can emit — plain characters, the any-character
atom `.`, and backslash escapes; a trailing backslash (a pattern Postgres
rejects) is modelled as no match. -/
def reMatchAtStart : List Char → List Char → Bool
  | [], _ => true
  | c :: p, t =>
    if c == '\\' then
      match p, t with
      | e :: p2, d :: t2 => (e.toLower == d.toLower) && reMatchAtStart p2 t2
      | _, _ => false
    else if c == '.' then
      match t with
      | _ :: t2 => reMatchAtStart p t2
      | [] => false
    else
      match t with
      | d :: t2 => (c.toLower == d.toLower) && reMatchAtStart p t2
      | [] => false

/-- The self-exclusion clause `query !~* '^<escaped marker>'` of
`statementSQL`, evaluated on one row's query text: `true` means the regex
matches, so the row is excluded. -/
def excludedAsOwnQuery (marker query : String) : Bool :=
  reMatchAtStart (queryMarkerRegexOf marker).data query.data

/-- Literal (case-sensitive) prefix test on strings, used to state what the
filters are supposed to exclude and to model `LIKE` with a trailing percent. -/
def litStartsWith (pre s : String) : Bool :=
  List.isPrefixOf pre.data s.data

/-- Case-insensitive literal prefix test: what the case-insensitive regex
match of an escaped marker amounts to. -/
def ciStartsWith : List Char → List Char → Bool
  | [], _ => true
  | _ :: _, [] => false
  | c :: p, d :: t => (c.toLower == d.toLower) && ciStartsWith p t

/-- The characters with a special meaning in a Postgres regular expression,
besides the star and the slash-as-escaped-by-the-code: markers built from the
remaining characters are exactly the ones the code's escaping handles. -/
def regexSpecialChars : List Char :=
  ['.', '\\', '+', '?', '(', ')', '[', ']', '\x7b', '\x7d', '|', '^', '$']

/-- One row of the source relation (`pg_stat_statements` or the helper
function), with every column the acquisition query can reference. -/
structure SourceRow where
  userid : Int
  query : String
  calls : Int
  totalTime : Int
  rows : Int
  sharedBlksHit : Int
  sharedBlksRead : Int
  sharedBlksDirtied : Int
  sharedBlksWritten : Int
  localBlksHit : Int
  localBlksRead : Int
  localBlksDirtied : Int
  localBlksWritten : Int
  tempBlksRead : Int
  tempBlksWritten : Int
  blkReadTime : Int
  blkWriteTime : Int
  queryid : Int
  minTime : Int
  maxTime : Int
  meanTime : Int
  stddevTime : Int
  dbid : Int

/-- The `Statement` struct from `dbstats/statements.go`: the optional columns
(9.4+ and 9.5+) are nullable and modelled as `Option`. -/
structure Statement where
  userid : Int
  query : String
  calls : Int
  totalTime : Int
  rows : Int
  sharedBlksHit : Int
  sharedBlksRead : Int
  sharedBlksDirtied : Int
  sharedBlksWritten : Int
  localBlksHit : Int
  localBlksRead : Int
  localBlksDirtied : Int
  localBlksWritten : Int
  tempBlksRead : Int
  tempBlksWritten : Int
  blkReadTime : Int
  blkWriteTime : Int
  queryid : Option Int
  minTime : Option Int
  maxTime : Option Int
  meanTime : Option Int
  stddevTime : Option Int

/-- `dbid IN (SELECT oid FROM pg_database WHERE datname = current_database())`:
the row's dbid is the oid of a `pg_database` entry named like the connected
database. -/
def dbidInCurrentDatabase (pgDatabase : List (Int × String)) (currentDatabase : String)
    (dbid : Int) : Bool :=
  pgDatabase.any (fun p => p.1 == dbid && p.2 == currentDatabase)

/-- Model of the `WHERE` clause of `statementSQL` evaluated on one source row:
self-exclusion regex, the two housekeeping filters, and the current-database
restriction. `NOT LIKE 'DEALLOCATE %'` is a literal-prefix exclusion. -/
def statementRowFilter (marker : String) (pgDatabase : List (Int × String))
    (currentDatabase : String) (r : SourceRow) : Bool :=
  !(excludedAsOwnQuery marker r.query)
    && r.query != "<insufficient privilege>"
    && !(litStartsWith "DEALLOCATE " r.query)
    && dbidInCurrentDatabase pgDatabase currentDatabase r.dbid

/-- The shared non-optional columns of the `SELECT` list applied to a row. -/
def baseStatement (r : SourceRow) : Statement where
  userid := r.userid
  query := r.query
  calls := r.calls
  totalTime := r.totalTime
  rows := r.rows
  sharedBlksHit := r.sharedBlksHit
  sharedBlksRead := r.sharedBlksRead
  sharedBlksDirtied := r.sharedBlksDirtied
  sharedBlksWritten := r.sharedBlksWritten
  localBlksHit := r.localBlksHit
  localBlksRead := r.localBlksRead
  localBlksDirtied := r.localBlksDirtied
  localBlksWritten := r.localBlksWritten
  tempBlksRead := r.tempBlksRead
  tempBlksWritten := r.tempBlksWritten
  blkReadTime := r.blkReadTime
  blkWriteTime := r.blkWriteTime
  queryid := none
  minTime := none
  maxTime := none
  meanTime := none
  stddevTime := none

/-- Model of the database evaluating the `SELECT` list for the three
optional-field lists the source can splice into `statementSQL`: `NULL`
columns scan as absent, named columns as present. -/
def projectStatementRow (optionalFields : String) (r : SourceRow) : Statement :=
  if optionalFields == statementSQLpg95OptionalFields then
    { baseStatement r with
        queryid := some r.queryid, minTime := some r.minTime, maxTime := some r.maxTime,
        meanTime := some r.meanTime, stddevTime := some r.stddevTime }
  else if optionalFields == statementSQLpg94OptionalFields then
    { baseStatement r with queryid := some r.queryid }
  else
    baseStatement r

/-! ### The database oracle -/

/-- Oracle describing what the monitored database answers during one run:
the outcome of each `QueryRow(...).Scan(&enabled)` probe call (keyed by the
SQL text sent), of the n-th `Prepare` of a given SQL text, of each `Exec`,
of `stmt.Query()`, and of the n-th `rows.Scan`; plus the catalog contents the
acquisition query reads (the source relation and `pg_database`).
`rowsErrAt` models a mid-iteration failure of the row stream: when it is
`some n`, `rows.Next()` returns `false` before the n-th result row is handed
over, with the cause available only through `rows.Err()`. -/
structure Db where
  queryRowScanBool : String → Except PgError Bool
  prepareResult : Nat → String → Option PgError
  execResult : String → Option PgError
  queryResult : Option PgError
  scanResult : Nat → Option PgError
  rowsErrAt : Option Nat
  relation : List SourceRow
  pgDatabase : List (Int × String)
  currentDatabase : String

/-! ### Capability and privilege probes -/

/-- The SQL text `statementStatsHelperExists` sends (`dbstats/statements.go`,
line 67). -/
def statementStatsHelperSentSQL (marker : String) : String :=
  marker ++ statementStatsHelperSQL

/-- `statementStatsHelperExists` from `dbstats/statements.go`: any error of
the probe query collapses to `false`. -/
def statementStatsHelperExists (marker : String) (db : Db) : Bool :=
  match db.queryRowScanBool (statementStatsHelperSentSQL marker) with
  | .error _ => false
  | .ok enabled => enabled

/-- The SQL text `connectedAsSuperUser` sends (`input/postgres/superuser.go`,
line 13). -/
def connectedAsSuperUserSentSQL (marker : String) : String :=
  marker ++ connectedAsSuperUserSQL

/-- `connectedAsSuperUser` from `input/postgres/superuser.go`. -/
def connectedAsSuperUser (marker : String) (db : Db) : Bool :=
  match db.queryRowScanBool (connectedAsSuperUserSentSQL marker) with
  | .error _ => false
  | .ok enabled => enabled

/-- The SQL text `connectedAsMonitoringRole` sends
(`input/postgres/superuser.go`, line 30). -/
def connectedAsMonitoringRoleSentSQL (marker : String) : String :=
  marker ++ connectedAsMonitoringRoleSQL

/-- `connectedAsMonitoringRole` from `input/postgres/superuser.go`. -/
def connectedAsMonitoringRole (marker : String) (db : Db) : Bool :=
  match db.queryRowScanBool (connectedAsMonitoringRoleSentSQL marker) with
  | .error _ => false
  | .ok enabled => enabled

/-- The SQL text `statsHelperExists` sends (`input/postgres/superuser.go`,
line 48). -/
def statsHelperSentSQL (marker statsHelper : String) : String :=
  marker ++ goFormat1 statsHelperSQL statsHelper

/-- `statsHelperExists` from `input/postgres/superuser.go`. -/
def statsHelperExists (marker : String) (db : Db) (statsHelper : String) : Bool :=
  match db.queryRowScanBool (statsHelperSentSQL marker statsHelper) with
  | .error _ => false
  | .ok enabled => enabled

/-! ### GetStatements -/

/-- Modelled from the spec: the named version thresholds 9.4 and 9.5 that the
detected numeric server version is compared against; the constants
`PostgresVersion94` and `PostgresVersion95` are declared outside the sources
at hand, with values following the `server_version_num` convention. -/
def PostgresVersion94 : Int := 90400

/-- Modelled from the spec: the 9.5 threshold, see `PostgresVersion94`. -/
def PostgresVersion95 : Int := 90500

/-- The optional-field list chosen by `GetStatements`
(`dbstats/statements.go`, lines 79 to 85). -/
def statementOptionalFields (numericVersion : Int) : String :=
  if numericVersion ≥ PostgresVersion95 then statementSQLpg95OptionalFields
  else if numericVersion ≥ PostgresVersion94 then statementSQLpg94OptionalFields
  else statementSQLDefaultOptionalFields

/-- The source relation chosen by `GetStatements`
(`dbstats/statements.go`, lines 87 to 92). -/
def statementSourceTable (helperFound : Bool) : String :=
  if helperFound then "pganalyze.get_stat_statements()" else "pg_stat_statements"

/-- The full SQL text `GetStatements` prepares (`dbstats/statements.go`,
line 98): marker, then `statementSQL` with the optional fields, the source
table and the escaped marker spliced in. -/
def preparedStatementSQL (marker : String) (numericVersion : Int)
    (sourceTable : String) : String :=
  marker ++ goFormat3 statementSQL (statementOptionalFields numericVersion)
    sourceTable (queryMarkerRegexOf marker)

/-- The rows the database hands back when the prepared query runs: the source
relation filtered by the `WHERE` clause, each row projected through the
`SELECT` list. -/
def statementQueryRows (marker optionalFields : String) (db : Db) : List Statement :=
  (db.relation.filter (statementRowFilter marker db.pgDatabase db.currentDatabase)).map
    (projectStatementRow optionalFields)

/-- The `rows.Next` / `rows.Scan` loop of `GetStatements`
(`dbstats/statements.go`, lines 129 to 142): the first scan error aborts the
whole call with that error. `rows.Next()` also returns `false` — ending the
loop — when the row stream fails mid-iteration (`rowsErrAt`); the code then
returns the rows accumulated so far with a nil error, since it never calls
`rows.Err()` after the loop. -/
def scanAll (scanResult : Nat → Option PgError) (rowsErrAt : Option Nat) :
    Nat → List Statement → Except PgError (List Statement)
  | _, [] => .ok []
  | i, r :: rs =>
    if rowsErrAt = some i then .ok []
    else
      match scanResult i with
      | some e => .error e
      | none =>
        match scanAll scanResult rowsErrAt (i + 1) rs with
        | .error e => .error e
        | .ok l => .ok (r :: l)

/-- `stmt.Query()` and the scan loop (`dbstats/statements.go`,
lines 121 to 144). -/
def runStatementQuery (marker optionalFields : String) (db : Db) :
    Except PgError (List Statement) :=
  match db.queryResult with
  | some e => .error e
  | none => scanAll db.scanResult db.rowsErrAt 0 (statementQueryRows marker optionalFields db)

/-- The SQL text `GetStatements` prepares against a given oracle: the source
table is the one its helper probe picks. -/
def getStatementsSQL (marker : String) (db : Db) (numericVersion : Int) : String :=
  preparedStatementSQL marker numericVersion
    (statementSourceTable (statementStatsHelperExists marker db))

/-- `GetStatements` from `dbstats/statements.go` (lines 75 to 145). Returns
the Go result (statement list or error) paired with the trace of every SQL
text sent to the database, in order: the helper probe, each `Prepare`, and
the `CREATE EXTENSION` repair. A first `Prepare` failure with SQLSTATE 42P01
against the plain view triggers the one repair-and-retry branch. -/
def getStatements (marker : String) (db : Db) (numericVersion : Int) :
    Except PgError (List Statement) × List String :=
  match db.prepareResult 0 (getStatementsSQL marker db numericVersion) with
  | some err =>
    if statementSourceTable (statementStatsHelperExists marker db) == "pg_stat_statements"
        && err.code == "42P01" then
      match db.execResult (marker ++ createExtensionSQL) with
      | some e =>
        (.error e,
          [statementStatsHelperSentSQL marker, getStatementsSQL marker db numericVersion,
           marker ++ createExtensionSQL])
      | none =>
        match db.prepareResult 1 (getStatementsSQL marker db numericVersion) with
        | some e =>
          (.error e,
            [statementStatsHelperSentSQL marker, getStatementsSQL marker db numericVersion,
             marker ++ createExtensionSQL, getStatementsSQL marker db numericVersion])
        | none =>
          (runStatementQuery marker (statementOptionalFields numericVersion) db,
            [statementStatsHelperSentSQL marker, getStatementsSQL marker db numericVersion,
             marker ++ createExtensionSQL, getStatementsSQL marker db numericVersion])
    else
      (.error err,
        [statementStatsHelperSentSQL marker, getStatementsSQL marker db numericVersion])
  | none =>
    (runStatementQuery marker (statementOptionalFields numericVersion) db,
      [statementStatsHelperSentSQL marker, getStatementsSQL marker db numericVersion])

/-! ### The diff engine (spec-modelled) and the persisted-state data model

The state package declares `PersistedState`, `DiffState`, `StateOnDisk` and
`StateOnDiskFormatVersion`; the diff computation and the on-disk load are
implemented elsewhere in the repository and are modelled here from the spec. -/

/-- One entity's cumulative counters in one category of a snapshot. The key
and value types of the per-category maps are declared outside the sources at
hand; keys are modelled as strings, counter records by this fixed set of
named integer counters. -/
structure StatCounters where
  calls : Int
  totalTime : Int
  rows : Int
  sharedBlksHit : Int
deriving Repr, DecidableEq

/-- One entity's diffed counters: the per-field deltas plus the marker for
entries treated as a reset. -/
structure DiffedStatCounters where
  calls : Int
  totalTime : Int
  rows : Int
  sharedBlksHit : Int
  treatedAsReset : Bool
deriving Repr, DecidableEq

/-- A category's `CounterSet`: entity key to counter record, keys unique. -/
abbrev CounterSet : Type := List (String × StatCounters)

/-- A category's diffed `CounterSet`. -/
abbrev DiffedCounterSet : Type := List (String × DiffedStatCounters)

/-- Whether any counter of a matched entity decreased between the previous
and the current snapshot. -/
def anyCounterDecreased (prev cur : StatCounters) : Bool :=
  cur.calls < prev.calls || cur.totalTime < prev.totalTime
    || cur.rows < prev.rows || cur.sharedBlksHit < prev.sharedBlksHit

/-- Modelled from the spec: the per-entity delta of the diff engine, whose
implementation is outside the sources at hand. Matched entity with no counter
decrease: per-field difference; any counter decreased: the current absolute
value for every field, marked as reset. -/
def diffCounters (prev cur : StatCounters) : DiffedStatCounters :=
  if anyCounterDecreased prev cur then
    { calls := cur.calls, totalTime := cur.totalTime, rows := cur.rows,
      sharedBlksHit := cur.sharedBlksHit, treatedAsReset := true }
  else
    { calls := cur.calls - prev.calls, totalTime := cur.totalTime - prev.totalTime,
      rows := cur.rows - prev.rows, sharedBlksHit := cur.sharedBlksHit - prev.sharedBlksHit,
      treatedAsReset := false }

/-- Modelled from the spec: a newly appearing entity establishes its baseline
and reports zero deltas on its first cycle. -/
def newEntityDiff : DiffedStatCounters :=
  { calls := 0, totalTime := 0, rows := 0, sharedBlksHit := 0, treatedAsReset := false }

/-- Modelled from the spec: one category of the diff engine, whose
implementation is outside the sources at hand. Every entity of the current
snapshot is looked up in the previous one; entities only in the previous
snapshot are dropped silently. -/
def diffCounterSet (prev cur : CounterSet) : DiffedCounterSet :=
  cur.map (fun kc =>
    (kc.1, match List.lookup kc.1 prev with
           | some p => diffCounters p kc.2
           | none => newEntityDiff))

/-- All counters of a record are non-negative, as cumulative counters are. -/
abbrev countersNonNeg (c : StatCounters) : Prop :=
  0 ≤ c.calls ∧ 0 ≤ c.totalTime ∧ 0 ≤ c.rows ∧ 0 ≤ c.sharedBlksHit

/-- All deltas of a diffed record are non-negative. -/
abbrev diffedNonNeg (d : DiffedStatCounters) : Prop :=
  0 ≤ d.calls ∧ 0 ≤ d.totalTime ∧ 0 ≤ d.rows ∧ 0 ≤ d.sharedBlksHit

/-- `PersistedState` from the state package: the snapshot kept across
collector runs. Catalog fields whose types are declared outside the sources
at hand and that no verified property inspects (roles, databases, backends,
relations, settings, functions, version, logs, explains, system state,
collector stats) are modelled as opaque strings or integers. -/
structure PersistedState where
  collectedAt : Int
  databaseOidsWithLocalCatalog : List Int
  statementStats : CounterSet
  relationStats : CounterSet
  indexStats : CounterSet
  functionStats : CounterSet
  roles : List String
  databases : List String
  backends : List String
  relations : List String
  settings : List String
  functions : List String
  version : Int
  logs : List String
  explains : List String
  dataDirectory : String
  system : Int
  collectorStats : StatCounters

/-- `DiffState` from the state package: the result of diffing two persisted
states; the system-level maps are modelled like the category maps. -/
structure DiffState where
  statementStats : DiffedCounterSet
  relationStats : DiffedCounterSet
  indexStats : DiffedCounterSet
  functionStats : DiffedCounterSet
  systemCPUStats : DiffedCounterSet
  systemNetworkStats : DiffedCounterSet
  systemDiskStats : DiffedCounterSet
  collectorStats : DiffedStatCounters

/-- `StateOnDiskFormatVersion` from the state package. -/
def StateOnDiskFormatVersion : Nat := 1

/-- `StateOnDisk` from the state package: the versioned on-disk container,
one previous state per API key. -/
structure StateOnDisk where
  formatVersion : Nat
  prevStateByAPIKey : List (String × PersistedState)

/-- Modelled from the spec: the load step of the state store, whose
implementation is outside the sources at hand. A container whose
format-version tag differs from `StateOnDiskFormatVersion` is discarded
whole, and every key reads as absent. -/
def loadPrevState (s : StateOnDisk) (apiKey : String) : Option PersistedState :=
  if s.formatVersion ≠ StateOnDiskFormatVersion then none
  else List.lookup apiKey s.prevStateByAPIKey

/-! ### Concrete sample values used by the witnesses -/

/-- A sample source-relation row: an ordinary user query in database oid 1. -/
def sampleRow : SourceRow where
  userid := 10
  query := "SELECT 1"
  calls := 1
  totalTime := 2
  rows := 3
  sharedBlksHit := 4
  sharedBlksRead := 5
  sharedBlksDirtied := 6
  sharedBlksWritten := 7
  localBlksHit := 8
  localBlksRead := 9
  localBlksDirtied := 10
  localBlksWritten := 11
  tempBlksRead := 12
  tempBlksWritten := 13
  blkReadTime := 14
  blkWriteTime := 15
  queryid := 77
  minTime := 16
  maxTime := 17
  meanTime := 18
  stddevTime := 19
  dbid := 1

/-- A second source-relation row: another ordinary user query in the same
database. -/
def sampleRow2 : SourceRow where
  userid := 11
  query := "SELECT 2"
  calls := 21
  totalTime := 22
  rows := 23
  sharedBlksHit := 24
  sharedBlksRead := 25
  sharedBlksDirtied := 26
  sharedBlksWritten := 27
  localBlksHit := 28
  localBlksRead := 29
  localBlksDirtied := 30
  localBlksWritten := 31
  tempBlksRead := 32
  tempBlksWritten := 33
  blkReadTime := 34
  blkWriteTime := 35
  queryid := 88
  minTime := 36
  maxTime := 37
  meanTime := 38
  stddevTime := 39
  dbid := 1

/-- A database oracle whose every probe query fails with a privilege error
and whose statement query succeeds on a one-row relation. -/
def errProbeDb : Db where
  queryRowScanBool := fun _ => .error { code := "42501" }
  prepareResult := fun _ _ => none
  execResult := fun _ => none
  queryResult := none
  scanResult := fun _ => none
  rowsErrAt := none
  relation := [sampleRow]
  pgDatabase := [(1, "mydb")]
  currentDatabase := "mydb"

/-- A database oracle reproducing the missing-view condition: the helper
probe fails, the first prepare fails with SQLSTATE 42P01, the repair and the
retried prepare succeed. -/
def missingViewDb : Db where
  queryRowScanBool := fun _ => .error { code := "42501" }
  prepareResult := fun n _ => if n == 0 then some { code := "42P01" } else none
  execResult := fun _ => none
  queryResult := none
  scanResult := fun _ => none
  rowsErrAt := none
  relation := [sampleRow]
  pgDatabase := [(1, "mydb")]
  currentDatabase := "mydb"

/-- A database oracle whose two-row result stream fails mid-iteration: after
the first row is handed over, `rows.Next()` returns `false` with the cause
only in `rows.Err()`. -/
def truncatedDb : Db where
  queryRowScanBool := fun _ => .error { code := "42501" }
  prepareResult := fun _ _ => none
  execResult := fun _ => none
  queryResult := none
  scanResult := fun _ => none
  rowsErrAt := some 1
  relation := [sampleRow, sampleRow2]
  pgDatabase := [(1, "mydb")]
  currentDatabase := "mydb"

/-- A sample persisted state with one statement-stats entry. -/
def samplePersistedState : PersistedState where
  collectedAt := 0
  databaseOidsWithLocalCatalog := [1]
  statementStats := [("q1", { calls := 5, totalTime := 5, rows := 5, sharedBlksHit := 5 })]
  relationStats := []
  indexStats := []
  functionStats := []
  roles := []
  databases := []
  backends := []
  relations := []
  settings := []
  functions := []
  version := 90500
  logs := []
  explains := []
  dataDirectory := ""
  system := 0
  collectorStats := { calls := 0, totalTime := 0, rows := 0, sharedBlksHit := 0 }

/-! ### Helper lemmas -/

/-- Looking a key up in a diffed category finds the diff of the first entry
the same key finds in the current snapshot. -/
theorem lookup_diffCounterSet (prev : CounterSet) (k : String) (c : StatCounters) :
    ∀ cur : CounterSet, List.lookup k cur = some c →
      List.lookup k (diffCounterSet prev cur) =
        some (match List.lookup k prev with
              | some p => diffCounters p c
              | none => newEntityDiff) := by
  intro cur
  induction cur with
  | nil => intro h; simp [List.lookup] at h
  | cons hd tl ih =>
    intro h
    rw [List.lookup] at h
    by_cases hk : k == hd.1
    · have hk2 : (k == hd.1) = true := by exact hk
      rw [hk2] at h
      have hc : hd.2 = c := by
        simpa using h
      have hkeq : k = hd.1 := by
        exact eq_of_beq hk2
      simp only [diffCounterSet, List.map_cons, List.lookup, hk2, hkeq, hc]
      simp
    · have hk2 : (k == hd.1) = false := by
        exact Bool.eq_false_iff.mpr hk
      rw [hk2] at h
      have := ih h
      simp only [diffCounterSet, List.map_cons, List.lookup, hk2]
      simpa [diffCounterSet] using this

/-- A pattern headed by a plain character (no backslash, no dot) consumes
exactly one text character, compared case-insensitively. -/
theorem reMatchAtStart_plain (c : Char) (p : List Char)
    (h3 : (c == '\\') = false) (h4 : (c == '.') = false) :
    ∀ t, reMatchAtStart (c :: p) t =
      match t with
      | [] => false
      | d :: t2 => (c.toLower == d.toLower) && reMatchAtStart p t2 := by
  intro t
  rw [reMatchAtStart.eq_def]
  cases t <;> simp [h3, h4]

/-- The code's escaping (escape star, then slash) turns a marker free of the
other regex metacharacters into a pattern matching exactly the
case-insensitive literal occurrences of the marker. -/
theorem reMatch_escaped : ∀ (m : List Char), (∀ c ∈ m, c ∉ regexSpecialChars) →
    ∀ t, reMatchAtStart (goReplaceChar '/' ['\\', '/'] (goReplaceChar '*' ['\\', '*'] m)) t
      = ciStartsWith m t := by
  intro m
  induction m with
  | nil =>
    intro h t
    simp [goReplaceChar, reMatchAtStart, ciStartsWith]
  | cons c m ih =>
    intro h t
    have hc : c ∉ regexSpecialChars := h c (List.mem_cons_self c m)
    have hm : ∀ x ∈ m, x ∉ regexSpecialChars := fun x hx => h x (List.mem_cons_of_mem c hx)
    have hnb : c ≠ '\\' := fun hh => hc (by rw [hh]; decide)
    have hnd : c ≠ '.' := fun hh => hc (by rw [hh]; decide)
    by_cases hstar : c = '*'
    · subst hstar
      have e1 : goReplaceChar '/' ['\\', '/'] (goReplaceChar '*' ['\\', '*'] ('*' :: m))
          = '\\' :: '*' :: goReplaceChar '/' ['\\', '/'] (goReplaceChar '*' ['\\', '*'] m) := rfl
      rw [e1]
      cases t with
      | nil => simp [reMatchAtStart, ciStartsWith]
      | cons d t2 =>
        show ((('*' : Char).toLower == d.toLower) && reMatchAtStart _ t2) = _
        simp [ciStartsWith, ih hm t2]
    · by_cases hslash : c = '/'
      · subst hslash
        have e1 : goReplaceChar '/' ['\\', '/'] (goReplaceChar '*' ['\\', '*'] ('/' :: m))
            = '\\' :: '/' :: goReplaceChar '/' ['\\', '/'] (goReplaceChar '*' ['\\', '*'] m) := rfl
        rw [e1]
        cases t with
        | nil => simp [reMatchAtStart, ciStartsWith]
        | cons d t2 =>
          show ((('/' : Char).toLower == d.toLower) && reMatchAtStart _ t2) = _
          simp [ciStartsWith, ih hm t2]
      · have h1 : (c == '*') = false := by simp [hstar]
        have h2 : (c == '/') = false := by simp [hslash]
        have h3 : (c == '\\') = false := by simp [hnb]
        have h4 : (c == '.') = false := by simp [hnd]
        have e1 : goReplaceChar '/' ['\\', '/'] (goReplaceChar '*' ['\\', '*'] (c :: m))
            = c :: goReplaceChar '/' ['\\', '/'] (goReplaceChar '*' ['\\', '*'] m) := by
          simp [goReplaceChar, h1, h2]
        rw [e1, reMatchAtStart_plain c _ h3 h4]
        cases t with
        | nil => simp [ciStartsWith]
        | cons d t2 => simp [ciStartsWith, ih hm t2]

/-- Trimming spaces only removes characters. -/
theorem mem_goTrimSpace {c : Char} {l : List Char} (h : c ∈ goTrimSpace l) : c ∈ l := by
  unfold goTrimSpace at h
  rw [List.mem_reverse] at h
  have h2 := (List.dropWhile_sublist _).mem h
  rw [List.mem_reverse] at h2
  exact (List.dropWhile_sublist _).mem h2

/-- The scan loop either stops at the first scan error with that error, or
returns an initial segment of the handed-back rows — the whole row set when
the stream does not fail mid-iteration. -/
theorem scanAll_spec (f : Nat → Option PgError) (rowsErrAt : Option Nat) :
    ∀ (i : Nat) (rs : List Statement),
      (∃ e, scanAll f rowsErrAt i rs = .error e)
      ∨ ∃ l, scanAll f rowsErrAt i rs = .ok l ∧ l <+: rs := by
  intro i rs
  induction rs generalizing i with
  | nil => exact .inr ⟨[], rfl, List.prefix_refl []⟩
  | cons r rs ih =>
    unfold scanAll
    by_cases hstop : rowsErrAt = some i
    · exact .inr ⟨[], by simp [hstop], List.nil_prefix⟩
    · rw [if_neg hstop]
      cases hfi : f i with
      | some e => exact .inl ⟨e, by simp [hfi]⟩
      | none =>
        rcases ih (i + 1) with ⟨e, he⟩ | ⟨l, hl, hp⟩
        · exact .inl ⟨e, by simp [hfi, he]⟩
        · exact .inr ⟨r :: l, by simp [hfi, hl], List.cons_prefix_cons.mpr ⟨rfl, hp⟩⟩

/-- Without a mid-iteration stream failure, the scan loop either stops at the
first scan error with that error, or returns every handed-back row. -/
theorem scanAll_none_spec (f : Nat → Option PgError) :
    ∀ (i : Nat) (rs : List Statement),
      (∃ e, scanAll f none i rs = .error e) ∨ scanAll f none i rs = .ok rs := by
  intro i rs
  induction rs generalizing i with
  | nil => exact .inr rfl
  | cons r rs ih =>
    unfold scanAll
    rw [if_neg (by simp)]
    cases hfi : f i with
    | some e => exact .inl ⟨e, by simp [hfi]⟩
    | none =>
      rcases ih (i + 1) with ⟨e, he⟩ | hok
      · exact .inl ⟨e, by simp [hfi, he]⟩
      · exact .inr (by simp [hfi, hok])

/-- Running the prepared query either fails or returns an initial segment of
the row set. -/
theorem runStatementQuery_spec (marker optionalFields : String) (db : Db) :
    (∃ e, runStatementQuery marker optionalFields db = .error e)
    ∨ ∃ l, runStatementQuery marker optionalFields db = .ok l
        ∧ l <+: statementQueryRows marker optionalFields db := by
  unfold runStatementQuery
  cases hq : db.queryResult with
  | some e => exact .inl ⟨e, rfl⟩
  | none => exact scanAll_spec db.scanResult db.rowsErrAt 0 _

/-- Running the prepared query over an unbroken row stream either fails or
returns the full row set. -/
theorem runStatementQuery_none_spec (marker optionalFields : String) (db : Db)
    (h : db.rowsErrAt = none) :
    (∃ e, runStatementQuery marker optionalFields db = .error e)
    ∨ runStatementQuery marker optionalFields db =
        .ok (statementQueryRows marker optionalFields db) := by
  unfold runStatementQuery
  cases hq : db.queryResult with
  | some e => exact .inl ⟨e, rfl⟩
  | none =>
    rw [h]
    exact scanAll_none_spec db.scanResult 0 _

/-- Every branch of `getStatements` ends in an error or in running the
prepared query. -/
theorem getStatements_cases (marker : String) (db : Db) (v : Int) :
    (∃ e, (getStatements marker db v).1 = .error e)
    ∨ (getStatements marker db v).1 =
        runStatementQuery marker (statementOptionalFields v) db := by
  unfold getStatements
  split
  · split
    · split
      · exact .inl ⟨_, rfl⟩
      · split
        · exact .inl ⟨_, rfl⟩
        · exact .inr rfl
    · exact .inl ⟨_, rfl⟩
  · exact .inr rfl

/-- The trace of sent SQL is one of three shapes: probe and prepare; probe,
prepare and repair; probe, prepare, repair and retried prepare. -/
theorem getStatements_trace_cases (marker : String) (db : Db) (v : Int) :
    (getStatements marker db v).2 =
        [statementStatsHelperSentSQL marker, getStatementsSQL marker db v]
    ∨ (getStatements marker db v).2 =
        [statementStatsHelperSentSQL marker, getStatementsSQL marker db v,
         marker ++ createExtensionSQL]
    ∨ (getStatements marker db v).2 =
        [statementStatsHelperSentSQL marker, getStatementsSQL marker db v,
         marker ++ createExtensionSQL, getStatementsSQL marker db v] := by
  unfold getStatements getStatementsSQL
  split
  · split
    · split
      · exact .inr (.inl rfl)
      · split
        · exact .inr (.inr rfl)
        · exact .inr (.inr rfl)
    · exact .inl rfl
  · exact .inl rfl

/-- A successful `getStatements` returns an initial segment of the query's
row set. -/
theorem getStatements_ok (marker : String) (db : Db) (v : Int) (l : List Statement)
    (h : (getStatements marker db v).1 = .ok l) :
    l <+: statementQueryRows marker (statementOptionalFields v) db := by
  rcases getStatements_cases marker db v with ⟨e, he⟩ | heq
  · rw [he] at h; cases h
  · rcases runStatementQuery_spec marker (statementOptionalFields v) db with
      ⟨e, he⟩ | ⟨l2, hl2, hp⟩
    · rw [heq, he] at h; cases h
    · rw [heq, hl2] at h
      exact Except.ok.inj h ▸ hp

/-- A string is a prefix of itself followed by anything. -/
theorem marker_isPrefixOf_append (m s : String) :
    m.data.isPrefixOf (m ++ s).data = true := by
  rw [String.data_append, List.isPrefixOf_iff_prefix]
  exact List.prefix_append m.data s.data

/-- The helper probe reports the helper present exactly when its query scans
a true value. -/
theorem helper_iff_probe_ok (marker : String) (db : Db) :
    statementStatsHelperExists marker db = true ↔
      db.queryRowScanBool (statementStatsHelperSentSQL marker) = Except.ok true := by
  unfold statementStatsHelperExists
  cases h : db.queryRowScanBool (statementStatsHelperSentSQL marker) with
  | error e => simp
  | ok b => cases b <;> simp

/-- Projection with the all-NULL field list leaves every optional field
absent. -/
theorem project_default (r : SourceRow) :
    projectStatementRow statementSQLDefaultOptionalFields r = baseStatement r := by
  unfold projectStatementRow
  rw [if_neg (by decide), if_neg (by decide)]

/-- Projection with the 9.4 field list fills only the query identifier. -/
theorem project_pg94 (r : SourceRow) :
    projectStatementRow statementSQLpg94OptionalFields r =
      { baseStatement r with queryid := some r.queryid } := by
  unfold projectStatementRow
  rw [if_neg (by decide), if_pos (by decide)]

/-- Projection with the 9.5 field list fills the identifier and the four
timing statistics. -/
theorem project_pg95 (r : SourceRow) :
    projectStatementRow statementSQLpg95OptionalFields r =
      { baseStatement r with
          queryid := some r.queryid, minTime := some r.minTime, maxTime := some r.maxTime,
          meanTime := some r.meanTime, stddevTime := some r.stddevTime } := by
  unfold projectStatementRow
  rw [if_pos (by decide)]

/-! ### Claim theorems -/

/-- Claim C5: for well-formed snapshots and every matched entity, a decrease
in any counter makes the diff report the current absolute value for every
field of that entity, marked as reset; and no emitted delta is ever
negative. -/
theorem diffEngine_reset_and_no_negative_deltas (prev cur : CounterSet)
    (hcur : ∀ e ∈ cur, countersNonNeg e.2) :
    (∀ k p c, List.lookup k prev = some p → List.lookup k cur = some c →
       anyCounterDecreased p c = true →
       List.lookup k (diffCounterSet prev cur) =
         some { calls := c.calls, totalTime := c.totalTime, rows := c.rows,
                sharedBlksHit := c.sharedBlksHit, treatedAsReset := true })
    ∧ ∀ e ∈ diffCounterSet prev cur, diffedNonNeg e.2 := by
  constructor
  · intro k p c hp hc hdec
    rw [lookup_diffCounterSet prev k c cur hc, hp]
    simp [diffCounters, hdec]
  · intro e he
    unfold diffCounterSet at he
    simp only [List.mem_map] at he
    obtain ⟨kc, hkc, rfl⟩ := he
    have hnn := hcur kc hkc
    unfold countersNonNeg at hnn
    cases hl : List.lookup kc.1 prev with
    | none => simp [newEntityDiff, diffedNonNeg]
    | some p =>
      simp only [hl]
      unfold diffCounters
      by_cases hd : anyCounterDecreased p kc.2 = true
      · simp only [hd, if_true]
        unfold diffedNonNeg
        exact ⟨hnn.1, hnn.2.1, hnn.2.2.1, hnn.2.2.2⟩
      · have hd2 : anyCounterDecreased p kc.2 = false := by
          exact Bool.eq_false_iff.mpr hd
        simp only [hd2, Bool.false_eq_true, if_false]
        unfold anyCounterDecreased at hd2
        simp only [Bool.or_eq_false_iff, decide_eq_false_iff_not, not_lt] at hd2
        unfold diffedNonNeg
        refine ⟨?_, ?_, ?_, ?_⟩ <;> simp <;> omega

/-- Witness for C5: a matched entity whose counters all decreased yields the
current absolute values, marked as reset. -/
theorem diffEngine_reset_witness :
    List.lookup "a"
      (diffCounterSet
        [("a", { calls := 5, totalTime := 5, rows := 5, sharedBlksHit := 5 })]
        [("a", { calls := 3, totalTime := 4, rows := 5, sharedBlksHit := 6 })]) =
      some { calls := 3, totalTime := 4, rows := 5, sharedBlksHit := 6,
             treatedAsReset := true } :=
  (diffEngine_reset_and_no_negative_deltas
      [("a", { calls := 5, totalTime := 5, rows := 5, sharedBlksHit := 5 })]
      [("a", { calls := 3, totalTime := 4, rows := 5, sharedBlksHit := 6 })]
      (by decide)).1
    "a" { calls := 5, totalTime := 5, rows := 5, sharedBlksHit := 5 }
    { calls := 3, totalTime := 4, rows := 5, sharedBlksHit := 6 }
    (by decide) (by decide) (by decide)

/-- Claim C6: every capability and privilege probe returns `false` whenever
its underlying query fails, whatever the error; no probe error propagates. -/
theorem probes_collapse_errors (marker : String) (db : Db) (e : PgError) :
    (db.queryRowScanBool (connectedAsSuperUserSentSQL marker) = .error e →
       connectedAsSuperUser marker db = false)
    ∧ (db.queryRowScanBool (connectedAsMonitoringRoleSentSQL marker) = .error e →
       connectedAsMonitoringRole marker db = false)
    ∧ (∀ statsHelper,
        db.queryRowScanBool (statsHelperSentSQL marker statsHelper) = .error e →
        statsHelperExists marker db statsHelper = false)
    ∧ (db.queryRowScanBool (statementStatsHelperSentSQL marker) = .error e →
       statementStatsHelperExists marker db = false) := by
  refine ⟨?_, ?_, ?_, ?_⟩
  · intro h; simp [connectedAsSuperUser, h]
  · intro h; simp [connectedAsMonitoringRole, h]
  · intro s h; simp [statsHelperExists, h]
  · intro h; simp [statementStatsHelperExists, h]

/-- Witness for C6: against an oracle whose probe queries all fail with a
privilege error, every probe reports the capability as absent. -/
theorem probes_collapse_errors_witness :
    connectedAsSuperUser "/* m */ " errProbeDb = false
    ∧ connectedAsMonitoringRole "/* m */ " errProbeDb = false
    ∧ statsHelperExists "/* m */ " errProbeDb "get_stat_statements" = false
    ∧ statementStatsHelperExists "/* m */ " errProbeDb = false :=
  ⟨(probes_collapse_errors "/* m */ " errProbeDb { code := "42501" }).1 rfl,
   (probes_collapse_errors "/* m */ " errProbeDb { code := "42501" }).2.1 rfl,
   (probes_collapse_errors "/* m */ " errProbeDb { code := "42501" }).2.2.1
     "get_stat_statements" rfl,
   (probes_collapse_errors "/* m */ " errProbeDb { code := "42501" }).2.2.2 rfl⟩

/-- Claim C8: loading a persisted container whose format version differs
from `StateOnDiskFormatVersion` yields an absent previous state for every
API key, whatever else the container holds. -/
theorem version_mismatch_reads_absent (s : StateOnDisk)
    (h : s.formatVersion ≠ StateOnDiskFormatVersion) :
    ∀ apiKey, loadPrevState s apiKey = none := by
  intro apiKey
  unfold loadPrevState
  rw [if_pos h]

/-- Witness for C8: a version-2 container with a stored state for a key
still loads as absent for that key. -/
theorem version_mismatch_reads_absent_witness :
    loadPrevState { formatVersion := 2,
                    prevStateByAPIKey := [("key", samplePersistedState)] } "key" = none :=
  version_mismatch_reads_absent
    { formatVersion := 2, prevStateByAPIKey := [("key", samplePersistedState)] }
    (by decide) "key"

/-- Claim C1, counterexample: the escaping handles only the star and the
slash, and the match is case-insensitive, so for the marker "." the filter
drops a row whose query text does not begin with the literal marker and
passes every other condition — the exclusion is not exactly the
literal-marker rows. -/
theorem selfExclusion_counterexample :
    statementRowFilter "." [((1 : Int), "mydb")] "mydb" sampleRow = false
    ∧ litStartsWith "." sampleRow.query = false
    ∧ sampleRow.query ≠ "<insufficient privilege>"
    ∧ litStartsWith "DEALLOCATE " sampleRow.query = false
    ∧ dbidInCurrentDatabase [((1 : Int), "mydb")] "mydb" sampleRow.dbid = true := by
  refine ⟨rfl, rfl, ?_, rfl, rfl⟩
  decide

/-- Claim C1 (amended): for every marker whose characters avoid the regex
metacharacters other than the star and the slash (as the collector's actual
marker comment does), the self-exclusion clause matches — and the filter
therefore excludes — exactly the rows whose query text begins with the
space-trimmed marker up to ASCII case. -/
theorem selfExclusion_escaped_markers (marker : String)
    (h : ∀ c ∈ marker.data, c ∉ regexSpecialChars) :
    ∀ q : String, excludedAsOwnQuery marker q =
      ciStartsWith (goTrimSpace marker.data) q.data := by
  intro q
  unfold excludedAsOwnQuery queryMarkerRegexOf
  exact reMatch_escaped (goTrimSpace marker.data)
    (fun c hc => h c (mem_goTrimSpace hc)) q.data

/-- Witness for C1: the amended equivalence evaluated at the collector's
actual marker comment and a plain user query. -/
theorem selfExclusion_escaped_markers_witness :
    excludedAsOwnQuery "/* pganalyze-collector */ " "SELECT 1" =
      ciStartsWith (goTrimSpace ("/* pganalyze-collector */ ").data) ("SELECT 1").data :=
  selfExclusion_escaped_markers "/* pganalyze-collector */ " (by decide) "SELECT 1"

/-- Claim C7: every row the acquisition filter accepts has a query text
different from the insufficient-privilege placeholder, not starting with the
literal DEALLOCATE prefix, and a dbid belonging to the connected logical
database; equivalently, rows violating any of these are excluded. -/
theorem statementFilter_housekeeping (marker : String) (pgDatabase : List (Int × String))
    (currentDatabase : String) (r : SourceRow)
    (h : statementRowFilter marker pgDatabase currentDatabase r = true) :
    r.query ≠ "<insufficient privilege>"
    ∧ litStartsWith "DEALLOCATE " r.query = false
    ∧ dbidInCurrentDatabase pgDatabase currentDatabase r.dbid = true := by
  unfold statementRowFilter at h
  simp only [Bool.and_eq_true, Bool.not_eq_eq_eq_not, Bool.not_true, bne_iff_ne] at h
  exact ⟨h.1.1.2, h.1.2, h.2⟩

/-- Witness for C7: the sample row passes the filter and satisfies all three
conditions. -/
theorem statementFilter_housekeeping_witness :
    sampleRow.query ≠ "<insufficient privilege>"
    ∧ litStartsWith "DEALLOCATE " sampleRow.query = false
    ∧ dbidInCurrentDatabase [((1 : Int), "mydb")] "mydb" sampleRow.dbid = true :=
  statementFilter_housekeeping "/* pganalyze-collector */ " [((1 : Int), "mydb")] "mydb"
    sampleRow (by decide)

/-- Claim C2: when the helper is not in use and the first prepare fails with
the undefined-table SQLSTATE 42P01, `GetStatements` performs exactly one
repair (the CREATE EXTENSION statement) and exactly one retried prepare, as
the explicit sent-SQL traces show; a repair or retry failure is returned
with nothing further sent, any other prepare error is returned at once with
no repair, and a helper-sourced prepare error is returned at once as well. -/
theorem missingView_repair_retry (marker : String) (db : Db) (v : Int) (err : PgError) :
    (statementStatsHelperExists marker db = false →
     db.prepareResult 0 (preparedStatementSQL marker v "pg_stat_statements") = some err →
     err.code = "42P01" →
       (∀ e2, db.execResult (marker ++ createExtensionSQL) = some e2 →
          getStatements marker db v =
            (.error e2,
             [statementStatsHelperSentSQL marker,
              preparedStatementSQL marker v "pg_stat_statements",
              marker ++ createExtensionSQL]))
       ∧ (db.execResult (marker ++ createExtensionSQL) = none →
          (∀ e3, db.prepareResult 1 (preparedStatementSQL marker v "pg_stat_statements") = some e3 →
             getStatements marker db v =
               (.error e3,
                [statementStatsHelperSentSQL marker,
                 preparedStatementSQL marker v "pg_stat_statements",
                 marker ++ createExtensionSQL,
                 preparedStatementSQL marker v "pg_stat_statements"]))
          ∧ (db.prepareResult 1 (preparedStatementSQL marker v "pg_stat_statements") = none →
             getStatements marker db v =
               (runStatementQuery marker (statementOptionalFields v) db,
                [statementStatsHelperSentSQL marker,
                 preparedStatementSQL marker v "pg_stat_statements",
                 marker ++ createExtensionSQL,
                 preparedStatementSQL marker v "pg_stat_statements"]))))
    ∧ (statementStatsHelperExists marker db = false →
       db.prepareResult 0 (preparedStatementSQL marker v "pg_stat_statements") = some err →
       err.code ≠ "42P01" →
       getStatements marker db v =
         (.error err,
          [statementStatsHelperSentSQL marker,
           preparedStatementSQL marker v "pg_stat_statements"]))
    ∧ (statementStatsHelperExists marker db = true →
       db.prepareResult 0 (preparedStatementSQL marker v "pganalyze.get_stat_statements()")
         = some err →
       getStatements marker db v =
         (.error err,
          [statementStatsHelperSentSQL marker,
           preparedStatementSQL marker v "pganalyze.get_stat_statements()"])) := by
  refine ⟨?_, ?_, ?_⟩
  · intro hhe hp hcode
    have hsql : getStatementsSQL marker db v
        = preparedStatementSQL marker v "pg_stat_statements" := by
      unfold getStatementsSQL
      rw [hhe]
      rfl
    have hcond : (statementSourceTable (statementStatsHelperExists marker db)
        == "pg_stat_statements" && err.code == "42P01") = true := by
      rw [hhe, hcode]
      decide
    refine ⟨?_, fun hexec => ⟨?_, ?_⟩⟩
    · intro e2 he2
      simp only [getStatements, hsql, hp, hcond, if_true, he2]
    · intro e3 he3
      simp only [getStatements, hsql, hp, hcond, if_true, hexec, he3]
    · intro hp1
      simp only [getStatements, hsql, hp, hcond, if_true, hexec, hp1]
  · intro hhe hp hcode
    have hsql : getStatementsSQL marker db v
        = preparedStatementSQL marker v "pg_stat_statements" := by
      unfold getStatementsSQL
      rw [hhe]
      rfl
    have hcond : (statementSourceTable (statementStatsHelperExists marker db)
        == "pg_stat_statements" && err.code == "42P01") = false := by
      rw [hhe]
      simp [statementSourceTable, hcode]
    simp only [getStatements, hsql, hp, hcond, Bool.false_eq_true, if_false]
  · intro hhe hp
    have hsql : getStatementsSQL marker db v
        = preparedStatementSQL marker v "pganalyze.get_stat_statements()" := by
      unfold getStatementsSQL
      rw [hhe]
      rfl
    have hcond : (statementSourceTable (statementStatsHelperExists marker db)
        == "pg_stat_statements" && err.code == "42P01") = false := by
      rw [hhe]
      simp [statementSourceTable]
    simp only [getStatements, hsql, hp, hcond, Bool.false_eq_true, if_false]

/-- Witness for C2: on an oracle whose first prepare fails with 42P01 and
whose repair and retry succeed, the full trace is probe, prepare, repair,
retried prepare, and the call proceeds to run the query. -/
theorem missingView_repair_retry_witness :
    getStatements "/* m */ " missingViewDb 90300 =
      (runStatementQuery "/* m */ " (statementOptionalFields 90300) missingViewDb,
       [statementStatsHelperSentSQL "/* m */ ",
        preparedStatementSQL "/* m */ " 90300 "pg_stat_statements",
        "/* m */ " ++ createExtensionSQL,
        preparedStatementSQL "/* m */ " 90300 "pg_stat_statements"]) :=
  ((((missingView_repair_retry "/* m */ " missingViewDb 90300
      { code := "42P01" }).1 rfl rfl rfl).2 rfl).2 rfl)

/-- Claim C3: the optional-field set is chosen from the detected version —
none below 9.4, identifier-only from 9.4 below 9.5, identifier plus the four
timing statistics from 9.5 — and every statement a successful call returns
has exactly the corresponding optional fields present. -/
theorem versioned_optional_fields (marker : String) (db : Db) (v : Int) :
    (v < PostgresVersion94 →
      statementOptionalFields v = statementSQLDefaultOptionalFields
      ∧ ∀ l, (getStatements marker db v).1 = .ok l →
          ∀ s ∈ l, s.queryid = none ∧ s.minTime = none ∧ s.maxTime = none
            ∧ s.meanTime = none ∧ s.stddevTime = none)
    ∧ (PostgresVersion94 ≤ v → v < PostgresVersion95 →
      statementOptionalFields v = statementSQLpg94OptionalFields
      ∧ ∀ l, (getStatements marker db v).1 = .ok l →
          ∀ s ∈ l, s.queryid.isSome = true ∧ s.minTime = none ∧ s.maxTime = none
            ∧ s.meanTime = none ∧ s.stddevTime = none)
    ∧ (PostgresVersion95 ≤ v →
      statementOptionalFields v = statementSQLpg95OptionalFields
      ∧ ∀ l, (getStatements marker db v).1 = .ok l →
          ∀ s ∈ l, s.queryid.isSome = true ∧ s.minTime.isSome = true ∧ s.maxTime.isSome = true
            ∧ s.meanTime.isSome = true ∧ s.stddevTime.isSome = true) := by
  unfold PostgresVersion94 PostgresVersion95
  refine ⟨?_, ?_, ?_⟩
  · intro hv
    have hf : statementOptionalFields v = statementSQLDefaultOptionalFields := by
      unfold statementOptionalFields PostgresVersion94 PostgresVersion95
      rw [if_neg (by omega), if_neg (by omega)]
    refine ⟨hf, ?_⟩
    intro l hl s hs
    have hs2 : s ∈ statementQueryRows marker (statementOptionalFields v) db :=
      (getStatements_ok marker db v l hl).subset hs
    unfold statementQueryRows at hs2
    rw [hf] at hs2
    simp only [List.mem_map] at hs2
    obtain ⟨r, _, rfl⟩ := hs2
    rw [project_default]
    exact ⟨rfl, rfl, rfl, rfl, rfl⟩
  · intro hv1 hv2
    have hf : statementOptionalFields v = statementSQLpg94OptionalFields := by
      unfold statementOptionalFields PostgresVersion94 PostgresVersion95
      rw [if_neg (by omega), if_pos (by omega)]
    refine ⟨hf, ?_⟩
    intro l hl s hs
    have hs2 : s ∈ statementQueryRows marker (statementOptionalFields v) db :=
      (getStatements_ok marker db v l hl).subset hs
    unfold statementQueryRows at hs2
    rw [hf] at hs2
    simp only [List.mem_map] at hs2
    obtain ⟨r, _, rfl⟩ := hs2
    rw [project_pg94]
    exact ⟨rfl, rfl, rfl, rfl, rfl⟩
  · intro hv
    have hf : statementOptionalFields v = statementSQLpg95OptionalFields := by
      unfold statementOptionalFields PostgresVersion94 PostgresVersion95
      rw [if_pos (by omega)]
    refine ⟨hf, ?_⟩
    intro l hl s hs
    have hs2 : s ∈ statementQueryRows marker (statementOptionalFields v) db :=
      (getStatements_ok marker db v l hl).subset hs
    unfold statementQueryRows at hs2
    rw [hf] at hs2
    simp only [List.mem_map] at hs2
    obtain ⟨r, _, rfl⟩ := hs2
    rw [project_pg95]
    exact ⟨rfl, rfl, rfl, rfl, rfl⟩

/-- Witness for C3: a pre-9.4 version selects the all-NULL field list. -/
theorem versioned_optional_fields_witness :
    (90300 : Int) < PostgresVersion94
    ∧ statementOptionalFields 90300 = statementSQLDefaultOptionalFields :=
  ⟨by decide,
   ((versioned_optional_fields "/* m */ " errProbeDb 90300).1 (by decide)).1⟩

/-- Claim C4: the prepared acquisition SQL (the second sent text in every
trace) draws from the source table picked by the helper probe, which is the
privileged helper function exactly when the probe's query reports it
present, and the standard view otherwise. -/
theorem sourceTable_choice (marker : String) (db : Db) (v : Int) :
    (getStatements marker db v).2.get? 1 =
      some (preparedStatementSQL marker v
        (statementSourceTable (statementStatsHelperExists marker db)))
    ∧ statementSourceTable true = "pganalyze.get_stat_statements()"
    ∧ statementSourceTable false = "pg_stat_statements"
    ∧ (statementStatsHelperExists marker db = true ↔
        db.queryRowScanBool (statementStatsHelperSentSQL marker) = Except.ok true) := by
  refine ⟨?_, rfl, rfl, helper_iff_probe_ok marker db⟩
  rcases getStatements_trace_cases marker db v with ht | ht | ht <;> rw [ht] <;> rfl

/-- Claim C9: every SQL text this code sends — the helper-probe query, the
prepared acquisition query, the CREATE EXTENSION repair, and each privilege
probe — carries the marker comment as a prefix. -/
theorem allSentSQL_marked (marker : String) (db : Db) (v : Int) :
    (∀ s ∈ (getStatements marker db v).2, marker.data.isPrefixOf s.data = true)
    ∧ marker.data.isPrefixOf (connectedAsSuperUserSentSQL marker).data = true
    ∧ marker.data.isPrefixOf (connectedAsMonitoringRoleSentSQL marker).data = true
    ∧ (∀ statsHelper, marker.data.isPrefixOf (statsHelperSentSQL marker statsHelper).data = true)
    ∧ marker.data.isPrefixOf (statementStatsHelperSentSQL marker).data = true := by
  refine ⟨?_, marker_isPrefixOf_append _ _, marker_isPrefixOf_append _ _,
    fun _ => marker_isPrefixOf_append _ _, marker_isPrefixOf_append _ _⟩
  intro s hs
  have hforms : ∀ x ∈ (getStatements marker db v).2,
      x = statementStatsHelperSentSQL marker ∨ x = getStatementsSQL marker db v
        ∨ x = marker ++ createExtensionSQL := by
    rcases getStatements_trace_cases marker db v with ht | ht | ht <;>
      rw [ht] <;> intro x hx <;> simp only [List.mem_cons, List.mem_singleton] at hx <;>
      tauto
  rcases hforms s hs with h | h | h <;> subst h
  · exact marker_isPrefixOf_append _ _
  · exact marker_isPrefixOf_append _ _
  · exact marker_isPrefixOf_append _ _

/-- Witness for C9: the probe query of a concrete run carries its marker. -/
theorem allSentSQL_marked_witness :
    ("/* m */ ").data.isPrefixOf (statementStatsHelperSentSQL "/* m */ ").data = true :=
  (allSentSQL_marked "/* m */ " errProbeDb 90300).1 (statementStatsHelperSentSQL "/* m */ ")
    (by
      show _ ∈ [statementStatsHelperSentSQL "/* m */ ",
        preparedStatementSQL "/* m */ " 90300 "pg_stat_statements"]
      exact List.mem_cons_self _ _)

/-- Claim C10, counterexample: the loop never consults `rows.Err()` after
`rows.Next()` returns `false` (`dbstats/statements.go`, lines 129 to 144),
so when the row stream fails after the first of two rows, `GetStatements`
returns the one-row partially-scanned list with a nil error — not the
complete row set, and not an error. -/
theorem allOrNothing_counterexample :
    (getStatements "/* m */ " truncatedDb 90500).1 =
      Except.ok [projectStatementRow statementSQLpg95OptionalFields sampleRow]
    ∧ statementQueryRows "/* m */ " (statementOptionalFields 90500) truncatedDb =
      [projectStatementRow statementSQLpg95OptionalFields sampleRow,
       projectStatementRow statementSQLpg95OptionalFields sampleRow2]
    ∧ ([projectStatementRow statementSQLpg95OptionalFields sampleRow] : List Statement).length ≠
      (statementQueryRows "/* m */ " (statementOptionalFields 90500) truncatedDb).length := by
  refine ⟨rfl, rfl, ?_⟩
  decide

/-- Claim C10 (amended): every execution of `GetStatements` either returns a
nil statement list with a non-nil error (any prepare, query, or row-scan
failure), or a nil error with an initial segment of the scanned rows; that
segment is the complete row set whenever the row stream does not fail
mid-iteration — but a stream failure ends the `rows.Next()` loop with the
partially-scanned prefix and a nil error, because `rows.Err()` is never
checked. -/
theorem getStatements_partial_or_error (marker : String) (db : Db) (v : Int) :
    ((∃ e, (getStatements marker db v).1 = Except.error e)
      ∨ ∃ l, (getStatements marker db v).1 = Except.ok l
          ∧ l <+: statementQueryRows marker (statementOptionalFields v) db)
    ∧ (db.rowsErrAt = none →
        (∃ e, (getStatements marker db v).1 = Except.error e)
        ∨ (getStatements marker db v).1 =
            Except.ok (statementQueryRows marker (statementOptionalFields v) db)) := by
  constructor
  · rcases getStatements_cases marker db v with ⟨e, he⟩ | heq
    · exact .inl ⟨e, he⟩
    · rcases runStatementQuery_spec marker (statementOptionalFields v) db with
        ⟨e, he⟩ | ⟨l, hl, hp⟩
      · exact .inl ⟨e, heq.trans he⟩
      · exact .inr ⟨l, heq.trans hl, hp⟩
  · intro hnone
    rcases getStatements_cases marker db v with ⟨e, he⟩ | heq
    · exact .inl ⟨e, he⟩
    · rcases runStatementQuery_none_spec marker (statementOptionalFields v) db hnone with
        ⟨e, he⟩ | hok
      · exact .inl ⟨e, heq.trans he⟩
      · exact .inr (heq.trans hok)

/-- Witness for C10: over an unbroken row stream the original all-or-nothing
behavior holds at a concrete oracle. -/
theorem getStatements_partial_or_error_witness :
    (∃ e, (getStatements "/* m */ " errProbeDb 90300).1 = Except.error e)
    ∨ (getStatements "/* m */ " errProbeDb 90300).1 =
        Except.ok (statementQueryRows "/* m */ " (statementOptionalFields 90300) errProbeDb) :=
  (getStatements_partial_or_error "/* m */ " errProbeDb 90300).2 rfl

end Collector
